import Mathlib

/-!
Shallow embedding of the Averigua capability-inspection library
(src/Averigua.js) and proofs about its query functions.

The host environment (window, document, navigator globals) is modelled as
explicit data passed to each query.  A JavaScript function call is modelled
as a Lean function from the host state to an outcome that records the
console log, whether the return value was undefined, and uncaught
exceptions.
-/

namespace Averigua

/-- Outcome of a JavaScript call: either the function returned (with the
console-error log accumulated during the call, and `none` when the returned
value is the JavaScript value `undefined`), or an exception escaped. -/
inductive JsOut (α : Type) where
  | ret (log : List String) (v : Option α)
  | thrown (log : List String) (msg : String)
deriving DecidableEq

/-- Normal return with empty log. -/
def retv {α : Type} (a : α) : JsOut α := .ret [] (some a)

/-- Message printed by `Averigua._browserErr`. -/
def browserErrMsg : String := "Averigua: this is not a browser"

/-- Embedding of `return this._browserErr()`: `console.error` prints the
diagnostic and returns `undefined`, which the query returns. -/
def browserErrOut {α : Type} : JsOut α := .ret [browserErrMsg] none

/-- Result of accessing a storage global such as `window.localStorage`:
the access can throw (restricted contexts) or yield a value, of which the
code only observes truthiness. -/
inductive StorageSlot where
  | throwsOnAccess
  | val (truthy : Bool)
deriving DecidableEq

/-- The `webgl` drawing context of a throwaway canvas, as read by
`gpuInfo`. -/
structure GLCtx where
  vendor : String
  renderer : String
  dbg : Option (String × String)

/-- Measurement behaviour of the host for the font probe: offset width and
height of a probe span as a function of its `fontFamily` style string
(all other style properties are pinned to identical constants by
`createSpan`, so spans are distinguished exactly by this string). -/
structure FontEnv where
  offsetWidth : String → Nat
  offsetHeight : String → Nat

/-- A DOM node, as far as the font probe manipulates the document: probe
spans carry their `fontFamily`, probe containers are divs, and arbitrary
pre-existing children are `elem` nodes. -/
inductive Node where
  | span (fontFamily : String)
  | div (children : List Node)
  | elem (tag : String)

/-- One MIME-type record of a navigator plugin. -/
structure PluginMime where
  description : String
  type : String
  suffixes : String
deriving DecidableEq

/-- One entry of `navigator.plugins`. -/
structure PluginEntry where
  name : String
  description : String
  filename : String
  mimes : List PluginMime
deriving DecidableEq

/-- The record `pluginSupport` builds per plugin. -/
structure PluginOut where
  name : String
  description : String
  filename : String
  array : List PluginMime
deriving DecidableEq

/-- The `navigator` global (always present as an object in the model; the
code only reads it after the browser guard passed). -/
structure Navigator where
  userAgent : String
  getVRDisplays : Bool
  requestMIDIAccess : Bool
  doNotTrack : Option String
  appName : String
  appVersion : String
  plugins : List PluginEntry

/-- The `window` global, with the fields the queries read. -/
structure Window where
  webGLRenderingContext : Bool
  ontouchstart : Bool
  documentTouch : Bool
  matchMedia : String → Bool
  orientation : Option Int
  localStorage : StorageSlot
  sessionStorage : StorageSlot
  indexedDB : StorageSlot

/-- The `document` global, with the fields the queries read. -/
structure Document where
  expWebgl : Bool
  webgl : Option GLCtx
  isTouchDoc : Bool
  canPlayTypeAudio : Option (String → String)
  canPlayTypeVideo : Option (String → String)
  videoPoster : Bool
  trackSrc : Bool
  bodyChildren : List Node
  fontEnv : FontEnv

/-- The ambient host: `window` and `document` may each be undefined. -/
structure Host where
  window : Option Window
  document : Option Document
  navigator : Navigator

/-- Embedding of `Averigua.isBrowser`. -/
def isBrowser (h : Host) : Bool := h.window.isSome && h.document.isSome

/-! ## String helpers mirroring the JavaScript operations used -/

/-- JavaScript `Array.prototype.join(sep)`. -/
def jsJoin (sep : String) : List String → String
  | [] => ""
  | [x] => x
  | x :: y :: xs => x ++ sep ++ jsJoin sep (y :: xs)

/-- JavaScript `String.prototype.split(sep)` for a single-character
separator, on character lists. -/
def splitChar (sep : Char) : List Char → List (List Char)
  | [] => [[]]
  | c :: cs =>
    if c = sep then [] :: splitChar sep cs
    else
      match splitChar sep cs with
      | [] => [[c]]
      | g :: gs => (c :: g) :: gs

/-- JavaScript `String.prototype.split(sep)` for a single-character
separator. -/
def jsSplit1 (s : String) (sep : Char) : List String :=
  (splitChar sep s.toList).map (fun l => String.mk l)

/-- Lower-casing of a character list. -/
def lcList (l : List Char) : List Char := l.map Char.toLower

/-- Substring occurrence test on character lists. -/
def containsSub (needle : List Char) : List Char → Bool
  | [] => needle.isEmpty
  | c :: cs => needle.isPrefixOf (c :: cs) || containsSub needle cs

/-- Case-insensitive substring test, mirroring `/pat/i.test(s)` for a
literal pattern. -/
def ciContains (s pat : String) : Bool :=
  containsSub (lcList pat.toList) (lcList s.toList)

/-! ## Simple guarded queries -/

/-- The fixed alternation of mobile-platform tokens of `isMobile`. -/
def mobileTokens : List String :=
  ["Android", "webOS", "iPhone", "iPad", "iPod", "BlackBerry", "BB",
   "PlayBook", "IEMobile", "Windows Phone", "Kindle", "Silk", "Opera Mini"]

/-- Embedding of `Averigua.isMobile`. -/
def isMobile (h : Host) : JsOut Bool :=
  match h.window, h.document with
  | some _, some _ =>
      retv (mobileTokens.any (fun t => ciContains h.navigator.userAgent t))
  | _, _ => browserErrOut

/-- Embedding of `Averigua.hasWebGL`. -/
def hasWebGL (h : Host) : JsOut Bool :=
  match h.window, h.document with
  | some w, some d => retv (w.webGLRenderingContext && d.expWebgl)
  | _, _ => browserErrOut

/-- Embedding of `Averigua.hasWebVR`. -/
def hasWebVR (h : Host) : JsOut Bool :=
  match h.window, h.document with
  | some _, some _ => retv h.navigator.getVRDisplays
  | _, _ => browserErrOut

/-- Embedding of `Averigua.hasMIDI`. -/
def hasMIDI (h : Host) : JsOut Bool :=
  match h.window, h.document with
  | some _, some _ => retv h.navigator.requestMIDIAccess
  | _, _ => browserErrOut

/-- The prefix list of `hasTouch`:
`' -webkit- -moz- -o- -ms- '.split(' ')`. -/
def touchPrefixes : List String := jsSplit1 " -webkit- -moz- -o- -ms- " ' '

/-- The media-query string of `hasTouch`:
`['(', prefixes.join('touch-enabled),('), 'heartz', ')'].join('')`. -/
def touchQuery : String :=
  jsJoin "" ["(", jsJoin "touch-enabled),(" touchPrefixes, "heartz", ")"]

/-- Embedding of `Averigua.hasTouch`. -/
def hasTouch (h : Host) : JsOut Bool :=
  match h.window, h.document with
  | some w, some d =>
      if w.ontouchstart || (w.documentTouch && d.isTouchDoc) then retv true
      else retv (w.matchMedia touchQuery)
  | _, _ => browserErrOut

/-- Embedding of `Averigua.doNotTrack`. -/
def doNotTrack (h : Host) : JsOut Bool :=
  match h.window, h.document with
  | some _, some _ =>
      retv (h.navigator.doNotTrack == some "1" ||
            h.navigator.doNotTrack == some "yes")
  | _, _ => browserErrOut

/-- Embedding of `Averigua.orientation`.  The outer test is JavaScript
truthiness of `window.orientation`: an absent value and the number 0 are
both falsy. -/
def orientation (h : Host) : JsOut String :=
  match h.window, h.document with
  | some w, some _ =>
      match w.orientation with
      | none => retv "no-support"
      | some n =>
          if n = 0 then retv "no-support"
          else if n = -90 ∨ n = 90 then retv "landscape"
          else retv "portrait"
  | _, _ => browserErrOut

/-- Embedding of `Averigua.pluginSupport`. -/
def pluginSupport (h : Host) : JsOut (List PluginOut) :=
  match h.window, h.document with
  | some _, some _ =>
      retv (h.navigator.plugins.map
        (fun p => ⟨p.name, p.description, p.filename, p.mimes⟩))
  | _, _ => browserErrOut

/-- The record built by `storageSupport`. -/
structure StoreObj where
  localStorage : Bool
  sessionStorage : Bool
  indexedDB : Bool
deriving DecidableEq

/-- Exception message for a storage global that throws on access. -/
def storageThrowMsg : String := "SecurityError: storage access denied"

/-- Embedding of `Averigua.storageSupport`: the three globals are accessed
in source order with no try/catch, so a throwing access escapes. -/
def storageSupport (h : Host) : JsOut StoreObj :=
  match h.window, h.document with
  | some w, some _ =>
      match w.localStorage with
      | .throwsOnAccess => .thrown [] storageThrowMsg
      | .val a =>
          match w.sessionStorage with
          | .throwsOnAccess => .thrown [] storageThrowMsg
          | .val b =>
              match w.indexedDB with
              | .throwsOnAccess => .thrown [] storageThrowMsg
              | .val c => retv ⟨a, b, c⟩
  | _, _ => browserErrOut

/-! ## Media support -/

/-- The record built by `audioSupport`. -/
structure AudioObj where
  mp3 : String
  vorbis : String
  wav : String
  aac : String
deriving DecidableEq

/-- The record built by `videoSupport`. -/
structure VideoObj where
  captions : String
  poster : String
  webm : String
  h264 : String
  theora : String
deriving DecidableEq

/-- The normalization applied to each `canPlayType` result:
`if (x === '') x = 'no'`. -/
def normPlay (s : String) : String := if s = "" then "no" else s

def mp3Mime : String := "audio/mpeg;"
def vorbisMime : String := "audio/ogg; codecs=\"vorbis\""
def wavMime : String := "audio/wav; codecs=\"1\""
def aacMime : String := "audio/mp4; codecs=\"mp4a.40.2\""
def webmMime : String := "video/webm; codecs=\"vp8, vorbis\""
def h264Mime : String := "video/mp4; codecs=\"avc1.42E01E, mp4a.40.2\""
def theoraMime : String := "video/ogg; codecs=\"theora\""

/-- Body of `audioSupport` after the guard: fields start at "no" and are
overwritten only when the element has a `canPlayType` function. -/
def audioSupportCore (canPlay : Option (String → String)) : AudioObj :=
  match canPlay with
  | none => ⟨"no", "no", "no", "no"⟩
  | some f =>
      ⟨normPlay (f mp3Mime), normPlay (f vorbisMime),
       normPlay (f wavMime), normPlay (f aacMime)⟩

/-- Body of `videoSupport` after the guard. -/
def videoSupportCore (canPlay : Option (String → String))
    (posterIn trackSrcIn : Bool) : VideoObj :=
  match canPlay with
  | none => ⟨"no", "no", "no", "no", "no"⟩
  | some f =>
      ⟨if trackSrcIn then "probably" else "no",
       if posterIn then "probably" else "no",
       normPlay (f webmMime), normPlay (f h264Mime), normPlay (f theoraMime)⟩

/-- Embedding of `Averigua.audioSupport`. -/
def audioSupport (h : Host) : JsOut AudioObj :=
  match h.window, h.document with
  | some _, some d => retv (audioSupportCore d.canPlayTypeAudio)
  | _, _ => browserErrOut

/-- Embedding of `Averigua.videoSupport`. -/
def videoSupport (h : Host) : JsOut VideoObj :=
  match h.window, h.document with
  | some _, some d =>
      retv (videoSupportCore d.canPlayTypeVideo d.videoPoster d.trackSrc)
  | _, _ => browserErrOut

/-! ## browserInfo

The function applies a handful of fixed regular expressions to
`navigator.userAgent`.  Each one is embedded as a specialized matcher with
the JavaScript leftmost-first semantics: candidate start positions are
scanned left to right, alternatives are tried in written order, and the
remaining pattern must also match for an alternative to be chosen. -/

/-- ASCII word character, as in the JavaScript `\w` and `\b` classes. -/
def wordChar (c : Char) : Bool :=
  (('a' ≤ c && c ≤ 'z') || ('A' ≤ c && c ≤ 'Z') ||
   ('0' ≤ c && c ≤ '9') || c = '_')

/-- A `\b` word boundary holds before a word character iff the preceding
character (if any) is not a word character. -/
def boundaryBefore (prev : Option Char) : Bool :=
  match prev with
  | none => true
  | some c => !(wordChar c)

/-- JavaScript whitespace class `\s` (the subset that can occur in user
agent strings). -/
def jsSpace (c : Char) : Bool :=
  c = ' ' || c = '\t' || c = '\n' || c = '\r'

/-- Matches the literal `p` (given lower-case) case-insensitively at the
head of `s`; returns the rest of the input. -/
def charsCI : List Char → List Char → Option (List Char)
  | [], s => some s
  | _ :: _, [] => none
  | pc :: ps, c :: cs => if c.toLower = pc then charsCI ps cs else none

/-- One-or-more digits at the head of the input, as matched by `(\d+)`. -/
def digitsOf (s : List Char) : Option String :=
  match s.takeWhile Char.isDigit with
  | [] => none
  | ds => some (String.mk ds)

/-- Matches `\/?\s*(\d+)` at the head of the input (with backtracking over
the optional slash). -/
def matchTailDigits (s : List Char) : Option String :=
  let afterSpaces := fun (r : List Char) => digitsOf (r.dropWhile jsSpace)
  match s with
  | '/' :: rest =>
      match afterSpaces rest with
      | some d => some d
      | none => afterSpaces s
  | _ => afterSpaces s

/-- The alternatives of the first `browserInfo` regular expression, in
written order; the flag marks the `(?=\/)` lookahead of `trident`. -/
def browserAlts : List (List Char × Bool) :=
  [("opera".toList, false), ("chrome".toList, false),
   ("safari".toList, false), ("firefox".toList, false),
   ("msie".toList, false), ("trident".toList, true)]

/-- Tries the alternation at the current position; on success returns the
matched group-1 text (original case) and the captured digits. -/
def tryAlts : List (List Char × Bool) → List Char → Option (String × String)
  | [], _ => none
  | (p, la) :: rest, s =>
      match charsCI p s with
      | some after =>
          let laOk := if la then (match after with
            | '/' :: _ => true
            | _ => false) else true
          if laOk then
            match matchTailDigits after with
            | some d => some (String.mk (s.take p.length), d)
            | none => tryAlts rest s
          else tryAlts rest s
      | none => tryAlts rest s

/-- Embedding of
`ua.match(/(opera|chrome|safari|firefox|msie|trident(?=\/))\/?\s*(\d+)/i)`:
returns the group-1 and group-2 captures of the leftmost match. -/
def scanMain : List Char → Option (String × String)
  | [] => none
  | c :: cs =>
      match tryAlts browserAlts (c :: cs) with
      | some r => some r
      | none => scanMain cs

/-- Tail of the `rv` pattern: `[ :]+(\d+)` at the head of the input. -/
def rvTail (rest : List Char) : Option String :=
  match rest.takeWhile (fun c => c = ' ' || c = ':') with
  | [] => none
  | _ => digitsOf (rest.dropWhile (fun c => c = ' ' || c = ':'))

/-- Embedding of `/\brv[ :]+(\d+)/g.exec(ua)`: the captured digits of the
leftmost match. -/
def scanRv : Option Char → List Char → Option String
  | prev, 'r' :: 'v' :: rest =>
      if boundaryBefore prev then
        match rvTail rest with
        | some d => some d
        | none => scanRv (some 'r') ('v' :: rest)
      else scanRv (some 'r') ('v' :: rest)
  | prev, c :: cs =>
      have _ := prev
      scanRv (some c) cs
  | _, [] => none

/-- Attempts `(OPR|Edge)\/(\d+)` at the current position (case-sensitive),
returning the matched token and digits. -/
def oprEdgeAt (s : List Char) : Option (String × String) :=
  let tryTok := fun (tok : List Char) =>
    if tok.isPrefixOf s then
      match s.drop tok.length with
      | '/' :: rest =>
          match digitsOf rest with
          | some d => some (String.mk tok, d)
          | none => none
      | _ => none
    else none
  match tryTok "OPR".toList with
  | some r => some r
  | none => tryTok "Edge".toList

/-- Embedding of `ua.match(/\b(OPR|Edge)\/(\d+)/)`. -/
def scanOprEdge : Option Char → List Char → Option (String × String)
  | _, [] => none
  | prev, c :: cs =>
      if boundaryBefore prev then
        match oprEdgeAt (c :: cs) with
        | some r => some r
        | none => scanOprEdge (some c) cs
      else scanOprEdge (some c) cs

/-- Embedding of `ua.match(/version\/(\d+)/i)`: the captured digits. -/
def scanVersionTag : List Char → Option String
  | [] => none
  | c :: cs =>
      match charsCI "version/".toList (c :: cs) with
      | some rest =>
          match digitsOf rest with
          | some d => some d
          | none => scanVersionTag cs
      | none => scanVersionTag cs

/-- JavaScript `String.prototype.replace` with a string pattern: replaces
the first occurrence only. -/
def replaceFirstL : List Char → List Char → List Char → List Char
  | [], p, r => if p.isEmpty then r else []
  | c :: cs, p, r =>
      if p.isPrefixOf (c :: cs) then r ++ (c :: cs).drop p.length
      else c :: replaceFirstL cs p r

/-- JavaScript `s.replace(pat, rep)` for string patterns. -/
def replaceFirst (s pat rep : String) : String :=
  String.mk (replaceFirstL s.toList pat.toList rep.toList)

/-- Result of `browserInfo`: either a plain string (IE / Opera / Edge
branches) or a `{ name, version }` record. -/
inductive BrowserRes where
  | str (s : String)
  | named (name version : String)
deriving DecidableEq

/-- Embedding of `/trident/i.test(M[1])`; an undefined `M[1]` coerces to
the string "undefined", which does not contain "trident". -/
def tridentTest : Option String → Bool
  | none => false
  | some s => ciContains s "trident"

/-- Embedding of the body of `Averigua.browserInfo` after the guard. -/
def browserInfoCore (ua appName appVersion : String) : BrowserRes :=
  let M := scanMain ua.toList
  let M1 := M.map Prod.fst
  if tridentTest M1 then
    .str ("IE " ++ (scanRv none ua.toList).getD "")
  else
    let oprBranch : Option BrowserRes :=
      if M1 == some "Chrome" then
        match scanOprEdge none ua.toList with
        | some (nm, ver) =>
            some (.str (replaceFirst (nm ++ " " ++ ver) "OPR" "Opera"))
        | none => none
      else none
    match oprBranch with
    | some r => r
    | none =>
        let base : String × String :=
          match M with
          | some (m1, m2) => (m1, m2)
          | none => (appName, appVersion)
        match scanVersionTag ua.toList with
        | some v => .named base.1 v
        | none => .named base.1 base.2

/-- Embedding of `Averigua.browserInfo`. -/
def browserInfo (h : Host) : JsOut BrowserRes :=
  match h.window, h.document with
  | some _, some _ =>
      retv (browserInfoCore h.navigator.userAgent
              h.navigator.appName h.navigator.appVersion)
  | _, _ => browserErrOut

/-! ## gpuInfo (unguarded) -/

/-- The record built by `gpuInfo`. -/
structure GpuObj where
  vendor : String
  renderer : String
deriving DecidableEq

/-- Exception raised when a global named `document` is dereferenced outside
a visual host. -/
def refErrMsg : String := "ReferenceError: document is not defined"

/-- Exception raised by `gl.getExtension` when `gl` is null. -/
def nullCtxMsg : String := "TypeError: gl is null"

/-- Embedding of `Averigua.gpuInfo`: no browser guard; dereferences the
canvas 3D context without a null check. -/
def gpuInfo (h : Host) : JsOut GpuObj :=
  match h.document with
  | none => .thrown [] refErrMsg
  | some d =>
      match d.webgl with
      | none => .thrown [] nullCtxMsg
      | some gl =>
          match gl.dbg with
          | some p => retv ⟨p.1, p.2⟩
          | none => retv ⟨gl.vendor, gl.renderer⟩

/-! ## fontSupport (unguarded) -/

/-- The three generic baseline families of the font probe. -/
def baseFonts : List String := ["monospace", "sans-serif", "serif"]

/-- The fixed candidate font list of `fontSupport`, in source order. -/
def fontList : List String :=
  ["Andale Mono", "Arial", "Arial Black", "Arial Hebrew", "Arial MT", "Arial Narrow", 
   "Arial Rounded MT Bold", "Arial Unicode MS", "Bitstream Vera Sans Mono", "Book Antiqua", 
   "Bookman Old Style", "Calibri", "Cambria", "Cambria Math", "Century", "Century Gothic", 
   "Century Schoolbook", "Comic Sans", "Comic Sans MS", "Consolas", "Courier", "Courier New", 
   "Geneva", "Georgia", "Helvetica", "Helvetica Neue", "Impact", "Lucida Bright", 
   "Lucida Calligraphy", "Lucida Console", "Lucida Fax", "LUCIDA GRANDE", "Lucida Handwriting", 
   "Lucida Sans", "Lucida Sans Typewriter", "Lucida Sans Unicode", "Microsoft Sans Serif", 
   "Monaco", "Monotype Corsiva", "MS Gothic", "MS Outlook", "MS PGothic", 
   "MS Reference Sans Serif", "MS Sans Serif", "MS Serif", "MYRIAD", "MYRIAD PRO", "Palatino", 
   "Palatino Linotype", "Segoe Print", "Segoe Script", "Segoe UI", "Segoe UI Light", 
   "Segoe UI Semibold", "Segoe UI Symbol", "Tahoma", "Times", "Times New Roman", 
   "Times New Roman PS", "Trebuchet MS", "Verdana", "Wingdings", "Wingdings 2", "Wingdings 3", 
   "Abadi MT Condensed Light", "Academy Engraved LET", "ADOBE CASLON PRO", "Adobe Garamond", 
   "ADOBE GARAMOND PRO", "Agency FB", "Aharoni", "Albertus Extra Bold", "Albertus Medium", 
   "Algerian", "Amazone BT", "American Typewriter", "American Typewriter Condensed", 
   "AmerType Md BT", "Andalus", "Angsana New", "AngsanaUPC", "Antique Olive", "Aparajita", 
   "Apple Chancery", "Apple Color Emoji", "Apple SD Gothic Neo", "Arabic Typesetting", "ARCHER", 
   "ARNO PRO", "Arrus BT", "Aurora Cn BT", "AvantGarde Bk BT", "AvantGarde Md BT", "AVENIR", 
   "Ayuthaya", "Bandy", "Bangla Sangam MN", "Bank Gothic", "BankGothic Md BT", "Baskerville", 
   "Baskerville Old Face", "Batang", "BatangChe", "Bauer Bodoni", "Bauhaus 93", "Bazooka", 
   "Bell MT", "Bembo", "Benguiat Bk BT", "Berlin Sans FB", "Berlin Sans FB Demi", 
   "Bernard MT Condensed", "BernhardFashion BT", "BernhardMod BT", "Big Caslon", "BinnerD", 
   "Blackadder ITC", "BlairMdITC TT", "Bodoni 72", "Bodoni 72 Oldstyle", "Bodoni 72 Smallcaps", 
   "Bodoni MT", "Bodoni MT Black", "Bodoni MT Condensed", "Bodoni MT Poster Compressed", 
   "Bookshelf Symbol 7", "Boulder", "Bradley Hand", "Bradley Hand ITC", "Bremen Bd BT", 
   "Britannic Bold", "Broadway", "Browallia New", "BrowalliaUPC", "Brush Script MT", 
   "Californian FB", "Calisto MT", "Calligrapher", "Candara", "CaslonOpnface BT", "Castellar", 
   "Centaur", "Cezanne", "CG Omega", "CG Times", "Chalkboard", "Chalkboard SE", "Chalkduster", 
   "Charlesworth", "Charter Bd BT", "Charter BT", "Chaucer", "ChelthmITC Bk BT", "Chiller", 
   "Clarendon", "Clarendon Condensed", "CloisterBlack BT", "Cochin", "Colonna MT", "Constantia", 
   "Cooper Black", "Copperplate", "Copperplate Gothic", "Copperplate Gothic Bold", 
   "Copperplate Gothic Light", "CopperplGoth Bd BT", "Corbel", "Cordia New", "CordiaUPC", 
   "Cornerstone", "Coronet", "Cuckoo", "Curlz MT", "DaunPenh", "Dauphin", "David", "DB LCD Temp", 
   "DELICIOUS", "Denmark", "DFKai-SB", "Didot", "DilleniaUPC", "DIN", "DokChampa", "Dotum", 
   "DotumChe", "Ebrima", "Edwardian Script ITC", "Elephant", "English 111 Vivace BT", 
   "Engravers MT", "EngraversGothic BT", "Eras Bold ITC", "Eras Demi ITC", "Eras Light ITC", 
   "Eras Medium ITC", "EucrosiaUPC", "Euphemia", "Euphemia UCAS", "EUROSTILE", "Exotc350 Bd BT", 
   "FangSong", "Felix Titling", "Fixedsys", "FONTIN", "Footlight MT Light", "Forte", "FrankRuehl", 
   "Fransiscan", "Freefrm721 Blk BT", "FreesiaUPC", "Freestyle Script", "French Script MT", 
   "FrnkGothITC Bk BT", "Fruitger", "FRUTIGER", "Futura", "Futura Bk BT", "Futura Lt BT", 
   "Futura Md BT", "Futura ZBlk BT", "FuturaBlack BT", "Gabriola", "Galliard BT", "Gautami", 
   "Geeza Pro", "Geometr231 BT", "Geometr231 Hv BT", "Geometr231 Lt BT", "GeoSlab 703 Lt BT", 
   "GeoSlab 703 XBd BT", "Gigi", "Gill Sans", "Gill Sans MT", "Gill Sans MT Condensed", 
   "Gill Sans MT Ext Condensed Bold", "Gill Sans Ultra Bold", "Gill Sans Ultra Bold Condensed", 
   "Gisha", "Gloucester MT Extra Condensed", "GOTHAM", "GOTHAM BOLD", "Goudy Old Style", 
   "Goudy Stout", "GoudyHandtooled BT", "GoudyOLSt BT", "Gujarati Sangam MN", "Gulim", "GulimChe", 
   "Gungsuh", "GungsuhChe", "Gurmukhi MN", "Haettenschweiler", "Harlow Solid Italic", "Harrington", 
   "Heather", "Heiti SC", "Heiti TC", "HELV", "Herald", "High Tower Text", 
   "Hiragino Kaku Gothic ProN", "Hiragino Mincho ProN", "Hoefler Text", "Humanst 521 Cn BT", 
   "Humanst521 BT", "Humanst521 Lt BT", "Imprint MT Shadow", "Incised901 Bd BT", "Incised901 BT", 
   "Incised901 Lt BT", "INCONSOLATA", "Informal Roman", "Informal011 BT", "INTERSTATE", "IrisUPC", 
   "Iskoola Pota", "JasmineUPC", "Jazz LET", "Jenson", "Jester", "Jokerman", "Juice ITC", 
   "Kabel Bk BT", "Kabel Ult BT", "Kailasa", "KaiTi", "Kalinga", "Kannada Sangam MN", "Kartika", 
   "Kaufmann Bd BT", "Kaufmann BT", "Khmer UI", "KodchiangUPC", "Kokila", "Korinna BT", 
   "Kristen ITC", "Krungthep", "Kunstler Script", "Lao UI", "Latha", "Leelawadee", "Letter Gothic", 
   "Levenim MT", "LilyUPC", "Lithograph", "Lithograph Light", "Long Island", "Lydian BT", 
   "Magneto", "Maiandra GD", "Malayalam Sangam MN", "Malgun Gothic", "Mangal", "Marigold", 
   "Marion", "Marker Felt", "Market", "Marlett", "Matisse ITC", "Matura MT Script Capitals", 
   "Meiryo", "Meiryo UI", "Microsoft Himalaya", "Microsoft JhengHei", "Microsoft New Tai Lue", 
   "Microsoft PhagsPa", "Microsoft Tai Le", "Microsoft Uighur", "Microsoft YaHei", 
   "Microsoft Yi Baiti", "MingLiU", "MingLiU_HKSCS", "MingLiU_HKSCS-ExtB", "MingLiU-ExtB", 
   "Minion", "Minion Pro", "Miriam", "Miriam Fixed", "Mistral", "Modern", "Modern No. 20", 
   "Mona Lisa Solid ITC TT", "Mongolian Baiti", "MONO", "MoolBoran", "Mrs Eaves", "MS LineDraw", 
   "MS Mincho", "MS PMincho", "MS Reference Specialty", "MS UI Gothic", "MT Extra", "MUSEO", 
   "MV Boli", "Nadeem", "Narkisim", "NEVIS", "News Gothic", "News GothicMT", "NewsGoth BT", 
   "Niagara Engraved", "Niagara Solid", "Noteworthy", "NSimSun", "Nyala", "OCR A Extended", 
   "Old Century", "Old English Text MT", "Onyx", "Onyx BT", "OPTIMA", "Oriya Sangam MN", "OSAKA", 
   "OzHandicraft BT", "Palace Script MT", "Papyrus", "Parchment", "Party LET", "Pegasus", 
   "Perpetua", "Perpetua Titling MT", "PetitaBold", "Pickwick", "Plantagenet Cherokee", "Playbill", 
   "PMingLiU", "PMingLiU-ExtB", "Poor Richard", "Poster", "PosterBodoni BT", "PRINCETOWN LET", 
   "Pristina", "PTBarnum BT", "Pythagoras", "Raavi", "Rage Italic", "Ravie", "Ribbon131 Bd BT", 
   "Rockwell", "Rockwell Condensed", "Rockwell Extra Bold", "Rod", "Roman", "Sakkal Majalla", 
   "Santa Fe LET", "Savoye LET", "Sceptre", "Script", "Script MT Bold", "SCRIPTINA", "Serifa", 
   "Serifa BT", "Serifa Th BT", "ShelleyVolante BT", "Sherwood", "Shonar Bangla", 
   "Showcard Gothic", "Shruti", "Signboard", "SILKSCREEN", "SimHei", "Simplified Arabic", 
   "Simplified Arabic Fixed", "SimSun", "SimSun-ExtB", "Sinhala Sangam MN", "Sketch Rockwell", 
   "Skia", "Small Fonts", "Snap ITC", "Snell Roundhand", "Socket", "Souvenir Lt BT", 
   "Staccato222 BT", "Steamer", "Stencil", "Storybook", "Styllo", "Subway", "Swis721 BlkEx BT", 
   "Swiss911 XCm BT", "Sylfaen", "Synchro LET", "System", "Tamil Sangam MN", "Technical", 
   "Teletype", "Telugu Sangam MN", "Tempus Sans ITC", "Terminal", "Thonburi", "Traditional Arabic", 
   "Trajan", "TRAJAN PRO", "Tristan", "Tubular", "Tunga", "Tw Cen MT", "Tw Cen MT Condensed", 
   "Tw Cen MT Condensed Extra Bold", "TypoUpright BT", "Unicorn", "Univers", 
   "Univers CE 55 Medium", "Univers Condensed", "Utsaah", "Vagabond", "Vani", "Vijaya", 
   "Viner Hand ITC", "VisualUI", "Vivaldi", "Vladimir Script", "Vrinda", "Westminster", "WHITNEY", 
   "Wide Latin", "ZapfEllipt BT", "ZapfHumnst BT", "ZapfHumnst Dm BT", "Zapfino", 
   "Zurich BlkEx BT", "Zurich Ex BT", "ZWAdobeF"]

/-- The apostrophe character used in the font-family stack string. -/
def quoteChar : Char := Char.ofNat 39

/-- The `fontFamily` style string of a candidate probe span:
the template literal `'${fontToDetect}',${baseFont}`. -/
def fontFamilyStack (font base : String) : String :=
  String.singleton quoteChar ++ font ++ String.singleton quoteChar ++ "," ++ base

/-- Embedding of the loop of `isFontAvailable`: walks the spans of one
candidate font (one per baseline), returning early as soon as a measured
dimension differs from the recorded default for that baseline. -/
def availLoop (e : FontEnv) (font : String) : List String → Bool
  | [] => false
  | b :: rest =>
      if e.offsetWidth (fontFamilyStack font b) ≠ e.offsetWidth b ∨
         e.offsetHeight (fontFamilyStack font b) ≠ e.offsetHeight b
      then true
      else availLoop e font rest

/-- Embedding of `isFontAvailable` for one candidate font. -/
def isFontAvailable (e : FontEnv) (font : String) : Bool :=
  availLoop e font baseFonts

/-- Embedding of the final loop of `fontSupport`: pushes each available
candidate, in `fontList` order. -/
def collectAvail (e : FontEnv) : List String → List String
  | [] => []
  | f :: rest =>
      if isFontAvailable e f then f :: collectAvail e rest
      else collectAvail e rest

/-- The div of baseline probe spans built by `initializeBaseFontsSpans`. -/
def baseFontsDivNode : Node := .div (baseFonts.map .span)

/-- The div of candidate probe spans built by `initializeFontsSpans`: for
each candidate font, one span per baseline. -/
def fontsDivNode : Node :=
  .div (fontList.flatMap (fun f => baseFonts.map (fun b => .span (fontFamilyStack f b))))

/-- Embedding of `Averigua.fontSupport` including its document mutations:
both probe divs are appended to the body and never removed; the result is
the available list together with the final body children. -/
def fontSupportRun (e : FontEnv) (body : List Node) :
    List String × List Node :=
  let body1 := body ++ [baseFontsDivNode]
  let body2 := body1 ++ [fontsDivNode]
  (collectAvail e fontList, body2)

/-- Embedding of `Averigua.fontSupport` as a host query: there is no
browser guard, so a missing `document` global is a hard fault. -/
def fontSupport (h : Host) : JsOut (List String) :=
  match h.document with
  | none => .thrown [] refErrMsg
  | some d => retv (fontSupportRun d.fontEnv d.bodyChildren).1

/-! ## Concrete fixtures for witnesses and counterexamples -/

/-- A measurement environment in which every probe span measures zero. -/
def fontEnvZero : FontEnv := ⟨fun _ => 0, fun _ => 0⟩

/-- A navigator with empty data. -/
def nav0 : Navigator := ⟨"", false, false, none, "", "", []⟩

/-- A host with neither a window nor a document global (a process host such
as Node.js). -/
def nodeHost : Host := ⟨none, none, nav0⟩

/-- A default window. -/
def w0 : Window :=
  ⟨false, false, false, fun _ => false, none, .val true, .val true, .val true⟩

/-- A default document (no webgl context obtainable, no canPlayType). -/
def doc0 : Document :=
  ⟨false, none, false, none, none, false, false, [], fontEnvZero⟩

/-- A plain browser host. -/
def defHost : Host := ⟨some w0, some doc0, nav0⟩

/-- A browser host whose orientation angle is present and equal to 0. -/
def orientZeroHost : Host :=
  ⟨some { w0 with orientation := some 0 }, some doc0, nav0⟩

/-- A window reporting a 90 degree orientation angle. -/
def w90 : Window := { w0 with orientation := some 90 }

/-- A window whose indexedDB global throws on access. -/
def idbThrowWindow : Window := { w0 with indexedDB := .throwsOnAccess }

/-- A browser host whose indexedDB global throws on access. -/
def idbThrowHost : Host := ⟨some idbThrowWindow, some doc0, nav0⟩

/-- A window whose sessionStorage global throws on access. -/
def sessThrowWindow : Window := { w0 with sessionStorage := .throwsOnAccess }

/-- A browser host whose sessionStorage global throws on access. -/
def sessThrowHost : Host := ⟨some sessThrowWindow, some doc0, nav0⟩

/-- A codec-support predicate that always answers "maybe". -/
def cpMaybe : String → String := fun _ => "maybe"

/-- A codec-support predicate that always answers the empty string. -/
def cpEmpty : String → String := fun _ => ""

/-- A representative IE 11 user-agent string. -/
def ieUA : String :=
  "Mozilla/5.0 (Windows NT 6.1; WOW64; Trident/7.0; rv:11.0) like Gecko"

/-- A representative Opera user-agent string (Chrome-style with an embedded
OPR token). -/
def oprUA : String :=
  "Mozilla/5.0 (Windows NT 10.0; Win64; x64) AppleWebKit/537.36 (KHTML, like Gecko) Chrome/78.0.3904.108 Safari/537.36 OPR/65.0.3467.78"

/-- A browser host presenting the IE 11 user agent. -/
def ieHost : Host := ⟨some w0, some doc0, { nav0 with userAgent := ieUA }⟩

/-- A browser host presenting the Opera user agent. -/
def oprHost : Host := ⟨some w0, some doc0, { nav0 with userAgent := oprUA }⟩

/-- Membership in the tri-state codec answer set. -/
def tri (s : String) : Prop := s = "no" ∨ s = "maybe" ∨ s = "probably"

/-! ## Theorems -/

/-- C6 counterexample: the constructed media-query string does not consist
of 5 comma-joined clauses. -/
theorem c6_counterexample : (jsSplit1 touchQuery ',').length ≠ 5 := by decide

/-- C6 amended: splitting the source prefix string yields six entries (the
leading and trailing empty strings included), and the constructed media
query consists of exactly 6 comma-joined parenthesized clauses: the five
touch-enabled clauses built from the prefixes plus the terminal dummy
clause (heartz). -/
theorem c6_amended :
    touchPrefixes = ["", "-webkit-", "-moz-", "-o-", "-ms-", ""] ∧
    jsSplit1 touchQuery ',' =
      ["(touch-enabled)", "(-webkit-touch-enabled)", "(-moz-touch-enabled)",
       "(-o-touch-enabled)", "(-ms-touch-enabled)", "(heartz)"] ∧
    (jsSplit1 touchQuery ',').length = 6 := by
  refine ⟨by decide, by decide, by decide⟩

/-- C7: on the fixed IE-style user agent (containing Trident and an rv:11.0
token) browserInfo returns the string "IE 11"; on the fixed Chrome-style
user agent with an embedded OPR token it returns "Opera 65", identifying
Opera with the OPR version number rather than Chrome. -/
theorem c7_browserInfo_samples :
    browserInfo ieHost = retv (BrowserRes.str "IE 11") ∧
    browserInfo oprHost = retv (BrowserRes.str "Opera 65") := by
  refine ⟨by decide, by decide⟩

/-- C1 counterexample: outside a browser, isMobile emits the diagnostic and
returns the JavaScript value undefined (modelled as `none`) — the result of
`console.error` — not a defined non-undefined sentinel. -/
theorem c1_counterexample :
    isMobile nodeHost = JsOut.ret [browserErrMsg] (none : Option Bool) := rfl

/-- C1 amended: outside a visual host every guarded capability query
soft-fails identically: it emits the single diagnostic line and returns
undefined (the value of the diagnostic call), which is distinguishable
from a legitimate false or empty result but is itself the undefined
value. -/
theorem c1_soft_fail (h : Host) (hb : isBrowser h = false) :
    isMobile h = browserErrOut ∧ hasWebGL h = browserErrOut ∧
    hasWebVR h = browserErrOut ∧ hasMIDI h = browserErrOut ∧
    hasTouch h = browserErrOut ∧ doNotTrack h = browserErrOut ∧
    orientation h = browserErrOut ∧ browserInfo h = browserErrOut ∧
    audioSupport h = browserErrOut ∧ videoSupport h = browserErrOut ∧
    pluginSupport h = browserErrOut ∧ storageSupport h = browserErrOut := by
  obtain ⟨w, d, n⟩ := h
  cases w with
  | none =>
      cases d with
      | none =>
          exact ⟨rfl, rfl, rfl, rfl, rfl, rfl, rfl, rfl, rfl, rfl, rfl, rfl⟩
      | some dd =>
          exact ⟨rfl, rfl, rfl, rfl, rfl, rfl, rfl, rfl, rfl, rfl, rfl, rfl⟩
  | some ww =>
      cases d with
      | none =>
          exact ⟨rfl, rfl, rfl, rfl, rfl, rfl, rfl, rfl, rfl, rfl, rfl, rfl⟩
      | some dd => simp [isBrowser] at hb

/-- C1 witness: the process host discharges the hypothesis. -/
theorem c1_witness :
    isBrowser nodeHost = false ∧
    (isMobile nodeHost = browserErrOut ∧ hasWebGL nodeHost = browserErrOut ∧
     hasWebVR nodeHost = browserErrOut ∧ hasMIDI nodeHost = browserErrOut ∧
     hasTouch nodeHost = browserErrOut ∧ doNotTrack nodeHost = browserErrOut ∧
     orientation nodeHost = browserErrOut ∧ browserInfo nodeHost = browserErrOut ∧
     audioSupport nodeHost = browserErrOut ∧ videoSupport nodeHost = browserErrOut ∧
     pluginSupport nodeHost = browserErrOut ∧ storageSupport nodeHost = browserErrOut) :=
  ⟨rfl, c1_soft_fail nodeHost rfl⟩

/-- Unfolding of orientation on a browser host. -/
theorem orientation_eq (w : Window) (d : Document) (n : Navigator) :
    orientation ⟨some w, some d, n⟩ =
      match w.orientation with
      | none => retv "no-support"
      | some a =>
          if a = 0 then retv "no-support"
          else if a = -90 ∨ a = 90 then retv "landscape"
          else retv "portrait" := rfl

/-- C2 counterexample: with the orientation angle present and equal to 0,
orientation returns "no-support", not "portrait" (the angle 0 is falsy, so
the code cannot distinguish it from an absent signal). -/
theorem c2_counterexample :
    orientation orientZeroHost = retv "no-support" ∧
    orientation orientZeroHost ≠ retv "portrait" := by
  refine ⟨rfl, by decide⟩

/-- C2 amended: in a browser, orientation always returns one of landscape,
portrait or no-support; an absent angle or the angle 0 gives no-support; a
present non-zero angle gives landscape exactly at -90 and 90 and portrait
otherwise. -/
theorem c2_amended (w : Window) (d : Document) (n : Navigator) :
    (orientation ⟨some w, some d, n⟩ = retv "landscape" ∨
     orientation ⟨some w, some d, n⟩ = retv "portrait" ∨
     orientation ⟨some w, some d, n⟩ = retv "no-support") ∧
    ((w.orientation = none ∨ w.orientation = some 0) →
      orientation ⟨some w, some d, n⟩ = retv "no-support") ∧
    (∀ a : Int, w.orientation = some a → a ≠ 0 →
      ((a = -90 ∨ a = 90) →
        orientation ⟨some w, some d, n⟩ = retv "landscape") ∧
      (¬(a = -90 ∨ a = 90) →
        orientation ⟨some w, some d, n⟩ = retv "portrait")) := by
  rw [orientation_eq]
  refine ⟨?_, ?_, ?_⟩
  · cases horient : w.orientation with
    | none => simp
    | some a =>
        by_cases h0 : a = 0
        · simp [h0]
        · by_cases h90 : a = -90 ∨ a = 90 <;> simp [h0, h90]
  · rintro (horient | horient) <;> simp [horient]
  · intro a horient h0
    constructor
    · intro h90; simp [horient, h0, h90]
    · intro h90; simp [horient, h0, h90]

/-- C2 witness: a 90 degree angle gives landscape. -/
theorem c2_witness :
    w90.orientation = some 90 ∧ (90 : Int) ≠ 0 ∧
    orientation ⟨some w90, some doc0, nav0⟩ = retv "landscape" :=
  ⟨rfl, by decide,
    ((c2_amended w90 doc0 nav0).2.2 90 rfl (by decide)).1 (Or.inr rfl)⟩

/-- Unfolding of storageSupport on a browser host. -/
theorem storageSupport_eq (w : Window) (d : Document) (n : Navigator) :
    storageSupport ⟨some w, some d, n⟩ =
      match w.localStorage with
      | .throwsOnAccess => .thrown [] storageThrowMsg
      | .val a =>
          match w.sessionStorage with
          | .throwsOnAccess => .thrown [] storageThrowMsg
          | .val b =>
              match w.indexedDB with
              | .throwsOnAccess => .thrown [] storageThrowMsg
              | .val c => retv ⟨a, b, c⟩ := rfl

/-- C3 counterexample: when accessing the indexedDB global throws, the
exception escapes storageSupport (there is no try/catch), instead of the
field being reported false. -/
theorem c3_counterexample :
    storageSupport idbThrowHost = JsOut.thrown [] storageThrowMsg ∧
    ∀ r : StoreObj, storageSupport idbThrowHost ≠ retv r := by
  refine ⟨rfl, ?_⟩
  intro r h
  exact JsOut.noConfusion h

/-- C3 amended: in a browser, when none of the three storage globals throws
each field of the returned record is exactly the truthiness of the
corresponding global; when a global throws on access the exception
propagates out of storageSupport as a hard fault. -/
theorem c3_amended (w : Window) (d : Document) (n : Navigator) :
    (∀ a b c : Bool, w.localStorage = .val a → w.sessionStorage = .val b →
      w.indexedDB = .val c →
      storageSupport ⟨some w, some d, n⟩ = retv ⟨a, b, c⟩) ∧
    (∀ a b : Bool, w.localStorage = .val a → w.sessionStorage = .val b →
      w.indexedDB = .throwsOnAccess →
      storageSupport ⟨some w, some d, n⟩ = JsOut.thrown [] storageThrowMsg) ∧
    (∀ a : Bool, w.localStorage = .val a →
      w.sessionStorage = .throwsOnAccess →
      storageSupport ⟨some w, some d, n⟩ = JsOut.thrown [] storageThrowMsg) ∧
    (w.localStorage = .throwsOnAccess →
      storageSupport ⟨some w, some d, n⟩ = JsOut.thrown [] storageThrowMsg) := by
  rw [storageSupport_eq]
  refine ⟨?_, ?_, ?_, ?_⟩
  · intro a b c h1 h2 h3; simp [h1, h2, h3]
  · intro a b h1 h2 h3; simp [h1, h2, h3]
  · intro a h1 h2; simp [h1, h2]
  · intro h1; simp [h1]

/-- C3 witness: with all three globals present and truthy the record is all
true; with indexedDB throwing, and likewise with sessionStorage throwing,
the call hard-faults. -/
theorem c3_witness :
    w0.localStorage = .val true ∧
    storageSupport defHost = retv (⟨true, true, true⟩ : StoreObj) ∧
    idbThrowWindow.indexedDB = .throwsOnAccess ∧
    storageSupport idbThrowHost = JsOut.thrown [] storageThrowMsg ∧
    sessThrowWindow.sessionStorage = .throwsOnAccess ∧
    storageSupport sessThrowHost = JsOut.thrown [] storageThrowMsg :=
  ⟨rfl, (c3_amended w0 doc0 nav0).1 true true true rfl rfl rfl, rfl,
   (c3_amended idbThrowWindow doc0 nav0).2.1 true true rfl rfl rfl, rfl,
   (c3_amended sessThrowWindow doc0 nav0).2.2.1 true rfl rfl⟩

/-- Normalized canPlayType answers stay in the tri-state set. -/
theorem normPlay_mem (s : String)
    (hs : s = "" ∨ s = "maybe" ∨ s = "probably") : tri (normPlay s) := by
  rcases hs with h | h | h <;> subst h <;> simp [tri, normPlay]

/-- An empty canPlayType answer normalizes to "no". -/
theorem normPlay_empty (s : String) (hs : s = "") : normPlay s = "no" := by
  subst hs; rfl

/-- C4: whenever the media elements provide a codec-support predicate whose
answers obey the canPlayType contract (empty, maybe or probably), every
codec field of the audio and video records is one of no, maybe or probably,
and an empty-string answer yields exactly "no" for the corresponding
field. -/
theorem c4_media_tristate (fa fv : String → String) (pv tv : Bool)
    (ha : ∀ s, fa s = "" ∨ fa s = "maybe" ∨ fa s = "probably")
    (hv : ∀ s, fv s = "" ∨ fv s = "maybe" ∨ fv s = "probably") :
    tri (audioSupportCore (some fa)).mp3 ∧
    tri (audioSupportCore (some fa)).vorbis ∧
    tri (audioSupportCore (some fa)).wav ∧
    tri (audioSupportCore (some fa)).aac ∧
    tri (videoSupportCore (some fv) pv tv).webm ∧
    tri (videoSupportCore (some fv) pv tv).h264 ∧
    tri (videoSupportCore (some fv) pv tv).theora ∧
    (fa mp3Mime = "" → (audioSupportCore (some fa)).mp3 = "no") ∧
    (fa vorbisMime = "" → (audioSupportCore (some fa)).vorbis = "no") ∧
    (fa wavMime = "" → (audioSupportCore (some fa)).wav = "no") ∧
    (fa aacMime = "" → (audioSupportCore (some fa)).aac = "no") ∧
    (fv webmMime = "" → (videoSupportCore (some fv) pv tv).webm = "no") ∧
    (fv h264Mime = "" → (videoSupportCore (some fv) pv tv).h264 = "no") ∧
    (fv theoraMime = "" → (videoSupportCore (some fv) pv tv).theora = "no") := by
  refine ⟨normPlay_mem _ (ha mp3Mime), normPlay_mem _ (ha vorbisMime),
    normPlay_mem _ (ha wavMime), normPlay_mem _ (ha aacMime),
    normPlay_mem _ (hv webmMime), normPlay_mem _ (hv h264Mime),
    normPlay_mem _ (hv theoraMime),
    fun h => normPlay_empty _ h, fun h => normPlay_empty _ h,
    fun h => normPlay_empty _ h, fun h => normPlay_empty _ h,
    fun h => normPlay_empty _ h, fun h => normPlay_empty _ h,
    fun h => normPlay_empty _ h⟩

/-- C4 witness: concrete predicates discharge the hypotheses; the
empty-string predicate yields "no" for webm. -/
theorem c4_witness :
    (∀ s, cpMaybe s = "" ∨ cpMaybe s = "maybe" ∨ cpMaybe s = "probably") ∧
    (∀ s, cpEmpty s = "" ∨ cpEmpty s = "maybe" ∨ cpEmpty s = "probably") ∧
    tri (audioSupportCore (some cpMaybe)).mp3 ∧
    (videoSupportCore (some cpEmpty) true true).webm = "no" := by
  have h1 : ∀ s, cpMaybe s = "" ∨ cpMaybe s = "maybe" ∨ cpMaybe s = "probably" :=
    fun _ => Or.inr (Or.inl rfl)
  have h2 : ∀ s, cpEmpty s = "" ∨ cpEmpty s = "maybe" ∨ cpEmpty s = "probably" :=
    fun _ => Or.inl rfl
  obtain ⟨t1, _, _, _, _, _, _, _, _, _, _, i12, _, _⟩ :=
    c4_media_tristate cpMaybe cpEmpty true true h1 h2
  exact ⟨h1, h2, t1, i12 rfl⟩

/-- The early-return loop of isFontAvailable detects exactly the existence
of a baseline whose measurements differ. -/
theorem availLoop_iff (e : FontEnv) (f : String) (l : List String) :
    availLoop e f l = true ↔ ∃ b ∈ l,
      e.offsetWidth (fontFamilyStack f b) ≠ e.offsetWidth b ∨
      e.offsetHeight (fontFamilyStack f b) ≠ e.offsetHeight b := by
  induction l with
  | nil => simp [availLoop]
  | cons b rest ih =>
      by_cases hb : e.offsetWidth (fontFamilyStack f b) ≠ e.offsetWidth b ∨
          e.offsetHeight (fontFamilyStack f b) ≠ e.offsetHeight b
      · simp [availLoop, hb]
      · simp [availLoop, hb, ih]

/-- The accumulation loop of fontSupport is a filter. -/
theorem collectAvail_eq_filter (e : FontEnv) (l : List String) :
    collectAvail e l = l.filter (fun f => isFontAvailable e f) := by
  induction l with
  | nil => rfl
  | cons f rest ih =>
      by_cases hf : isFontAvailable e f <;>
        simp [collectAvail, List.filter_cons, hf, ih]

/-- C5: a candidate is judged available iff for at least one of the three
baseline families a measured dimension of its stacked span differs from
that baseline's recorded default, and the returned list is exactly the
ordered sublist of available candidates of the fixed reference list. -/
theorem c5_fontSupport_filter (e : FontEnv) :
    (∀ f, isFontAvailable e f = true ↔ ∃ b ∈ baseFonts,
      e.offsetWidth (fontFamilyStack f b) ≠ e.offsetWidth b ∨
      e.offsetHeight (fontFamilyStack f b) ≠ e.offsetHeight b) ∧
    (∀ body, (fontSupportRun e body).1 =
      fontList.filter (fun f => isFontAvailable e f)) :=
  ⟨fun f => availLoop_iff e f baseFonts,
   fun _ => collectAvail_eq_filter e fontList⟩

/-- C5 witness: the characterization applied at the all-zero measurement
environment. -/
theorem c5_witness :
    (fontSupportRun fontEnvZero []).1 =
      fontList.filter (fun f => isFontAvailable fontEnvZero f) :=
  (c5_fontSupport_filter fontEnvZero).2 []

/-- C8 counterexample: starting from an empty body, both probe containers
are still attached when fontSupport returns, so the child structure is not
unchanged. -/
theorem c8_counterexample :
    (fontSupportRun fontEnvZero []).2 ≠ ([] : List Node) :=
  List.cons_ne_nil _ _

/-- C8 amended: fontSupport appends the baseline-span container div and the
candidate-span container div to the body and never removes them; the body
ends with exactly those two extra children. -/
theorem c8_amended (e : FontEnv) (body : List Node) :
    (fontSupportRun e body).2 = body ++ [baseFontsDivNode, fontsDivNode] := by
  simp [fontSupportRun]

/-- C8 witness: the mutation at the empty body. -/
theorem c8_witness :
    (fontSupportRun fontEnvZero []).2 = [baseFontsDivNode, fontsDivNode] :=
  c8_amended fontEnvZero []

/-- C9: with the host measurement behaviour unchanged, a second invocation
of fontSupport (run on the document the first invocation left behind)
returns the same ordered availability list. -/
theorem c9_idempotent (e : FontEnv) (body : List Node) :
    (fontSupportRun e ((fontSupportRun e body).2)).1 =
      (fontSupportRun e body).1 := rfl

/-- C9 witness: the two consecutive runs at a concrete environment. -/
theorem c9_witness :
    (fontSupportRun fontEnvZero ((fontSupportRun fontEnvZero []).2)).1 =
      (fontSupportRun fontEnvZero []).1 :=
  c9_idempotent fontEnvZero []

/-- C10 counterexample: gpuInfo is not the only query with no visual-host
guard — fontSupport also dereferences the document global unguarded, and
hard-faults with no diagnostic when it is absent. -/
theorem c10_counterexample :
    fontSupport nodeHost = JsOut.thrown [] refErrMsg := rfl

/-- C10 amended: gpuInfo has no visual-host guard and no soft-fail branch:
with a present document whose webgl context acquisition yields null it
hard-faults dereferencing the null context, and with the document global
absent it hard-faults on the reference, in both cases emitting no
diagnostic and returning no sentinel; it is however not the only such
query, since fontSupport is equally unguarded. -/
theorem c10_unguarded (h : Host) (d : Document)
    (hd : h.document = some d) (hgl : d.webgl = none) :
    gpuInfo h = JsOut.thrown [] nullCtxMsg ∧
    (∀ h2 : Host, h2.document = none →
      gpuInfo h2 = JsOut.thrown [] refErrMsg ∧
      fontSupport h2 = JsOut.thrown [] refErrMsg) := by
  constructor
  · simp [gpuInfo, hd, hgl]
  · intro h2 h2d
    constructor
    · simp [gpuInfo, h2d]
    · simp [fontSupport, h2d]

/-- C10 witness: the default browser host has a document with no obtainable
webgl context, and the process host has no document. -/
theorem c10_witness :
    defHost.document = some doc0 ∧ doc0.webgl = none ∧
    gpuInfo defHost = JsOut.thrown [] nullCtxMsg ∧
    gpuInfo nodeHost = JsOut.thrown [] refErrMsg :=
  ⟨rfl, rfl, (c10_unguarded defHost doc0 rfl rfl).1,
   ((c10_unguarded defHost doc0 rfl rfl).2 nodeHost rfl).1⟩

end Averigua
